import Mathlib

/-!
Shallow embedding of the `ai3r2` repository's pipeline scripts and Flask
chat handlers, together with theorems checking the repository's
specification against the code.

External effects (HTTP requests, the OpenAI completion endpoint, the
Langfuse SDK, UUID generation, Python `eval`) are modelled as explicit
oracle inputs: each embedded function receives the outcome of every
external call it performs and computes exactly what the Python source
computes from those outcomes.
-/

namespace Ai3r2

/-- Python truthiness of an optional string (`None` and `""` are falsy). -/
def str_truthy : Option String → Bool
  | none => false
  | some s => s ≠ ""

/-! ## S01/E01 — `e01.py` -/

/-- Outcome of the `requests.get(login_url)` call in `fetch_question`:
either a network exception (`requests.RequestException`) or a response
with a status code and, when the parsed HTML has an element with
`id='human-question'`, that element's stripped text. -/
inductive FetchOutcome
  | exc
  | status (code : Nat) (element : Option String)

/-- `fetch_question` from `e01.py`: on a 200 response with a
`human-question` element of stripped text `t` it returns `t[9:]`;
on any other status code, a missing element, or a network exception it
returns `None`. -/
def fetch_question : FetchOutcome → Option String
  | .exc => none
  | .status code element =>
    if code = 200 then
      match element with
      | some t => some (t.drop 9)
      | none => none
    else none

/-- The externally visible steps of `e01.py`'s `main`. -/
inductive E01Step
  | fetch | llm | login | secret
deriving DecidableEq

/-- The sequence of pipeline steps `e01.py`'s `main` invokes, given the
outcome of the fetch, the per-question outcome of `get_answer_from_llm`
(`none` models an `OpenAIError`), and the per-answer outcome of
`login_to_system` (`none` models a non-200 status or network exception;
`some t` is the response text of a 200 response).  `main` aborts after a
falsy question, a falsy answer, or a falsy login response. -/
def e01_trace (fo : FetchOutcome) (llm : String → Option String)
    (login : String → Option String) : List E01Step :=
  match fetch_question fo with
  | none => [.fetch]
  | some q =>
    if q = "" then [.fetch]
    else
      match llm q with
      | none => [.fetch, .llm]
      | some a =>
        if a = "" then [.fetch, .llm]
        else
          match login a with
          | none => [.fetch, .llm, .login]
          | some _ => [.fetch, .llm, .login, .secret]

/-- The opening brace character. -/
def lbrace : Char := '\x7b'

/-- The closing brace character. -/
def rbrace : Char := '\x7d'

/-- The newline character, which `.` in a Python regex does not match. -/
def nl : Char := '\n'

/-- Whether a character list contains two adjacent occurrences of `c`. -/
def has_double (c : Char) : List Char → Bool
  | [] => false
  | [_] => false
  | a :: b :: rest => (a = c && b = c) || has_double c (b :: rest)

/-- One match attempt of the non-greedy group `(.*?)}}` right after an
opening `\x7b\x7b`: consume the shortest prefix of non-newline
characters that is followed by `\x7d\x7d`, returning the captured span
and the remainder after the closing braces (paired with a length bound
that justifies the scanner's recursion).  `none` means the attempt fails
— the input ends, or a newline appears, before a closing `\x7d\x7d`. -/
def grab_span : (l : List Char) → Option (List Char × { r : List Char // r.length < l.length })
  | [] => none
  | [_] => none
  | c1 :: c2 :: rest =>
    if c1 = rbrace ∧ c2 = rbrace then
      some ([], ⟨rest, by simp; omega⟩)
    else if c1 = nl then none
    else
      match grab_span (c2 :: rest) with
      | some (s, rr) => some (c1 :: s, ⟨rr.val, by
          have := rr.property
          simp at this ⊢
          omega⟩)
      | none => none

/-- Fuelled scanner for `re.findall`'s left-to-right search: at each
position try to match `\x7b\x7b(.*?)\x7d\x7d`; on success continue after
the match, on failure continue at the next character.  The fuel only
bounds the recursion; `scan_spans` supplies enough fuel for it never to
run out. -/
def scan_fuel : Nat → List Char → List (List Char)
  | 0, _ => []
  | _ + 1, [] => []
  | _ + 1, [_] => []
  | f + 1, c1 :: c2 :: rest =>
    if c1 = lbrace ∧ c2 = lbrace then
      match grab_span rest with
      | some (s, rr) => s :: scan_fuel f rr.val
      | none => scan_fuel f (c2 :: rest)
    else scan_fuel f (c2 :: rest)

/-- All spans captured by `re.findall(r"\x7b\x7b(.*?)\x7d\x7d", text)`
over a character list, in order. -/
def scan_spans (l : List Char) : List (List Char) := scan_fuel l.length l

/-- The list of strings that `fetch_secret_data` in `e01.py` extracts
(and prints) from the login response text: the captures of
`re.findall(r"\x7b\x7b(.*?)\x7d\x7d", login_response.text)`. -/
def fetch_secret_matches (s : String) : List String :=
  (scan_spans s.data).map String.mk

/-! ## S01/E02 — `e02.py` -/

/-- Outcome of the initial `requests.post(endpoint, json=...)` call in
`initiate_conversation`: a network exception, or a response with a status
code and a JSON body (`none` models a body that is not valid JSON; a
valid body carries the optional `msgID` and `text` fields). -/
inductive E02Fetch
  | netExc
  | resp (code : Nat) (body : Option (Option Int × Option String))

/-- `initiate_conversation` from `e02.py`: `response.raise_for_status()`
raises for status codes in `[400, 600)`, and that exception — like a
network exception or a JSON decoding failure — is caught and turned into
the sentinel pair `(0, "")`; otherwise the function returns
`(data.get("msgID"), data.get("text"))`. -/
def initiate_conversation : E02Fetch → Option Int × Option String
  | .netExc => (some 0, some "")
  | .resp code body =>
    if 400 ≤ code ∧ code < 600 then (some 0, some "")
    else
      match body with
      | none => (some 0, some "")
      | some (msgID, text) => (msgID, text)

/-- The externally visible steps of `e02.py`'s `main`. -/
inductive E02Step
  | initiate | llm | submit
deriving DecidableEq

/-- The sequence of pipeline steps `e02.py`'s `main` invokes, given the
outcome of the initiating POST and the per-question result of
`query_openai` (which returns `""` on an `OpenAIError`).  `main` aborts
after a falsy question and after a falsy LLM response; when the LLM
response is truthy, `send_response` is always invoked. -/
def e02_trace (fo : E02Fetch) (llm : String → String) : List E02Step :=
  match (initiate_conversation fo).2 with
  | none => [.initiate]
  | some q =>
    if q = "" then [.initiate]
    else
      if llm q = "" then [.initiate, .llm]
      else [.initiate, .llm, .submit]

/-! ## S01/E03 — `e03.py` -/

/-- A `test` sub-object of an item of `test-data`: a question `q` for the
LLM and an answer slot `a` (both may be absent). -/
structure TestPair where
  q : Option String
  a : Option String
deriving DecidableEq

/-- One item of the downloaded payload's `test-data` list.  The fields
`question`, `answer` and `test` may each be absent (`item.get(...)`
yields `None`). -/
structure TestItem where
  question : Option String
  answer : Option Int
  test : Option TestPair
deriving DecidableEq

/-- The downloaded payload: `data.get("test-data", [])` defaults to the
empty list when the key is absent. -/
structure E03Data where
  test_data : Option (List TestItem)
deriving DecidableEq

/-- Python truthiness of an optional integer (`None` and `0` are falsy). -/
def int_truthy : Option Int → Bool
  | none => false
  | some n => n ≠ 0

/-- The body of the `for item in test_data` loop of `process_test_data`
in `e03.py`, acting on one item: when both `question` and `answer` are
truthy and the recorded answer differs from `eval(question)`, the answer
is overwritten with `eval(question)`; otherwise the item is untouched.
Python's `eval` on the arithmetic question strings is modelled by the
total oracle `ev`. -/
def process_item (ev : String → Int) (item : TestItem) : TestItem :=
  match item.question, item.answer with
  | some q, some a =>
    if q ≠ "" ∧ a ≠ 0 then
      if a ≠ ev q then { item with answer := some (ev q) } else item
    else item
  | _, _ => item

/-- `process_test_data` from `e03.py`: walks `data.get("test-data", [])`
once, fixing wrong arithmetic answers in place, and collects
`test.get("q")` of every item with a truthy `test` object into
`question_to_llm`.  It returns `(test_data, question_to_llm)`. -/
def process_test_data (ev : String → Int) (data : E03Data) :
    List TestItem × List (Option String) :=
  let test_data := data.test_data.getD []
  (test_data.map (process_item ev),
   (test_data.filterMap TestItem.test).map TestPair.q)

/-- The externally visible steps of `e03.py`'s `main`. -/
inductive E03Step
  | download | parse | process | llm | submit
deriving DecidableEq

/-- The sequence of steps `e03.py`'s `main` invokes: `download_file` and
`parse_file_to_dict` re-raise on failure, aborting the run inside
`main`'s catch-all `except`; `process_test_data` and `query_openai` are
then always invoked; when `query_openai` returns `None` (an
`OpenAIError`), `update_answers` raises iterating over `None` and
`send_report` is never reached, otherwise `send_report` is invoked. -/
def e03_trace (download : Except String Unit) (parsed : Except String E03Data)
    (llm_answers : Option (List TestPair)) : List E03Step :=
  match download with
  | .error _ => [.download]
  | .ok _ =>
    match parsed with
    | .error _ => [.download, .parse]
    | .ok _ =>
      match llm_answers with
      | none => [.download, .parse, .process, .llm]
      | some _ => [.download, .parse, .process, .llm, .submit]

/-! ## S01/E04 — the two Flask chat services -/

/-- A chat message dictionary: optional `role`, `content` and `name`
fields (absent keys are `None` under `msg.get(...)`). -/
structure Msg where
  role : Option String
  content : Option String
  name : Option String
deriving DecidableEq

/-- `msg.get('role') == 'system'` as a Boolean. -/
def is_system (m : Msg) : Bool := m.role = some "system"

/-- The filter predicate `msg.get('role') != 'system'` used both by the
`langfuse_prompt` route handler and by `AssistantService.answer`. -/
def not_system (m : Msg) : Bool := !(is_system m)

/-- Whether an `Except` outcome is a success (no exception raised). -/
def except_ok {ε α : Type} : Except ε α → Bool
  | .ok _ => true
  | .error _ => false

/-! ### `langfuse_prompt` -/

/-- The parsed JSON body of a `POST /api/chat` request to
`langfuse_prompt/app.py`: `messages`, and the optional `session_id` and
`user_id` fields. -/
structure PromptReq where
  messages : List Msg
  session_id : Option String
  user_id : Option String
deriving DecidableEq

/-- The success JSON body of `langfuse_prompt`'s `chat` route:
`{'response': ..., 'session_id': ...}`. -/
structure PromptResp where
  response : String
  session_id : String
deriving DecidableEq

/-- The module-level state of `langfuse_prompt`: the service objects
constructed once at import time.  They are the only access points to the
external services, so they are modelled by the responses those services
give — `compiled_system` is `prompt.compile()[0]` for the Langfuse
prompt `my_prompt_from_LF`, and `llm` maps a message thread to the
completion content OpenAI returns for it. -/
structure PromptGlobals where
  compiled_system : Msg
  llm : List Msg → String

/-- The route handler's own filtering of the client messages:
`[msg for msg in data_messages if msg.get('role') != 'system']`. -/
def prompt_filtered (req : PromptReq) : List Msg :=
  req.messages.filter not_system

/-- The thread built inside `AssistantService.answer`:
`[system_message] + [msg for msg in messages if msg.get('role') != 'system']`. -/
def assistant_thread (compiled_system : Msg) (messages : List Msg) : List Msg :=
  compiled_system :: messages.filter not_system

/-- The message thread that one `POST /api/chat` request to
`langfuse_prompt` sends to the OpenAI completion call: the client
messages filtered in the route, filtered again and prefixed with the
compiled Langfuse system message in `AssistantService.answer`. -/
def prompt_chat_thread (g : PromptGlobals) (req : PromptReq) : List Msg :=
  assistant_thread g.compiled_system (prompt_filtered req)

/-- The success path of `langfuse_prompt`'s `chat` route: the response
carries `answer.choices[0].message.content` and the session id, which is
`data.get('session_id', str(uuid.uuid4()))` — `fresh_uuid` models the
`uuid.uuid4()` draw. -/
def prompt_chat (g : PromptGlobals) (fresh_uuid : String) (req : PromptReq) : PromptResp :=
  { response := g.llm (prompt_chat_thread g req),
    session_id := req.session_id.getD fresh_uuid }

/-- One invocation of `langfuse_prompt`'s `chat` route with the
module-level state threaded through explicitly.  The handler body
contains no assignment to any module-level name, so it returns the
module state unchanged. -/
def prompt_chat_invoke (g : PromptGlobals) (fresh_uuid : String) (req : PromptReq) :
    PromptGlobals × PromptResp :=
  (g, prompt_chat g fresh_uuid req)

/-- What `langfuse_prompt`'s `chat` route yields when it returns at all:
either the success JSON, or the generic
`{'error': 'An error occurred while processing your request'}, 500`
produced by its `except` clause. -/
inductive PromptRouteResult
  | ok (r : PromptResp)
  | err500generic
deriving DecidableEq

/-- The control flow of `langfuse_prompt`'s `chat` route.  `get_json`
is the outcome of `request.get_json()` (`ok none` models a JSON body
`null`, on which `data.get` raises `AttributeError`); `trace_create`,
`answer_call` and `trace_finalize` are the outcomes of the three calls
inside the `try` block.  An `Except.error` result is an exception that
escapes the handler — `langfuse_prompt/app.py` registers no error
handler, so nothing in this unit converts it to JSON. -/
def prompt_chat_route (get_json : Except String (Option PromptReq))
    (fresh_uuid : String) (trace_create : Except String Unit)
    (answer_call : Except String String) (trace_finalize : Except String Unit) :
    Except String PromptRouteResult :=
  match get_json with
  | .error e => .error e
  | .ok none => .error "AttributeError: NoneType has no attribute get"
  | .ok (some req) =>
    match trace_create with
    | .error _ => .ok .err500generic
    | .ok _ =>
      match answer_call with
      | .error _ => .ok .err500generic
      | .ok content =>
        match trace_finalize with
        | .error _ => .ok .err500generic
        | .ok _ =>
          .ok (.ok { response := content, session_id := req.session_id.getD fresh_uuid })

/-! ### `langfuse_python` -/

/-- An element of `langfuse_python`'s `all_messages` list: the code
builds it from role-tagged message dictionaries and then appends
`main_completion.choices[0].message.content`, a plain string. -/
inductive Entry
  | msg (m : Msg)
  | raw (s : String)
deriving DecidableEq

/-- Whether an `all_messages` element is a role-tagged message
dictionary (as opposed to a plain string). -/
def entry_is_tagged : Entry → Bool
  | .msg _ => true
  | .raw _ => false

/-- The parsed JSON body of a `POST /api/chat` request to
`langfuse_python/app.py`: `messages`, and the optional
`conversation_id` and `user_id` fields. -/
structure PyReq where
  messages : List Msg
  conversation_id : Option String
  user_id : Option String
deriving DecidableEq

/-- The success JSON body of `langfuse_python`'s `chat` route:
`{'completion': ..., 'conversation_id': ..., 'trace_id': ...}`. -/
structure PyResp where
  completion : String
  conversation_id : String
  trace_id : String
deriving DecidableEq

/-- The module-level state of `langfuse_python`: the service objects
constructed once at import time, modelled by the external responses they
deliver — `llm` maps a message list to the completion content OpenAI
returns for it. -/
structure PyGlobals where
  llm : List Entry → String

/-- The per-request external draws of `langfuse_python`'s `chat` route:
the two `uuid.uuid4()` calls (the `conversation_id` default and the `id`
option passed to `create_trace`) and the trace id the Langfuse SDK
returns from `create_trace`. -/
structure PyCallOracles where
  uuid_conv : String
  uuid_trace : String
  trace_id : String

/-- The fixed `system_messages` list built fresh on every request by
`langfuse_python`'s `chat` route. -/
def py_system_messages : List Entry :=
  [Entry.msg { role := some "system", content := some "You are a helpful assistant.",
               name := some "Norika" }]

/-- Everything observable about one successful pass through
`langfuse_python`'s `chat` route: the final `all_messages` list, the
`generated_response` list, and the JSON response. -/
structure PyRun where
  all_messages : List Entry
  generated_response : List String
  resp : PyResp
deriving DecidableEq

/-- The success path of `langfuse_python`'s `chat` route, mirroring the
source line by line: build `all_messages = [*system_messages,
*user_messages]`, call the completion on it, append the returned content
(`main_message`, a plain string) to `all_messages` and to
`generated_response`, and return the JSON body. -/
def py_chat_run (g : PyGlobals) (o : PyCallOracles) (req : PyReq) : PyRun :=
  let conversation_id := req.conversation_id.getD o.uuid_conv
  let trace_id := o.trace_id
  let all_messages := py_system_messages ++ req.messages.map Entry.msg
  let main_message := g.llm all_messages
  { all_messages := all_messages ++ [Entry.raw main_message],
    generated_response := [main_message],
    resp := { completion := main_message, conversation_id := conversation_id,
              trace_id := trace_id } }

/-- The JSON response of a successful pass through `langfuse_python`'s
`chat` route. -/
def py_chat (g : PyGlobals) (o : PyCallOracles) (req : PyReq) : PyResp :=
  (py_chat_run g o req).resp

/-- One invocation of `langfuse_python`'s `chat` route with the
module-level state threaded through explicitly.  The handler body
contains no assignment to any module-level name, so it returns the
module state unchanged. -/
def py_chat_invoke (g : PyGlobals) (o : PyCallOracles) (req : PyReq) :
    PyGlobals × PyResp :=
  (g, py_chat g o req)

/-- What `langfuse_python`'s `chat` route yields when it returns at all:
the success JSON, or a JSON `{'error': msg}` body with status 500
(produced by the route's `except` clause with `msg = str(exc)`, or by
the registered `error_handler` with the generic message). -/
inductive PyRouteResult
  | ok (r : PyResp)
  | json_err_500 (msg : String)
deriving DecidableEq

/-- Whether a route result is a JSON error body with HTTP status 500. -/
def py_is_json_500 : PyRouteResult → Bool
  | .json_err_500 _ => true
  | .ok _ => false

/-- The generic error message of `langfuse_python`'s registered
`error_handler` and of `langfuse_prompt`'s `except` clause. -/
def py_generic_error_message : String :=
  "An error occurred while processing your request"

/-- The control flow of `langfuse_python`'s `chat` route.  `get_json`
models `request.get_json()` (`ok none` is a JSON body `null`, on which
`data.get` raises); `trace_create` is `langfuse_service.create_trace`,
which runs before the `try` block, so its exception escapes the route;
`span_create`, `completion_call`, `span_finalize` and `trace_finalize`
run inside the `try` block, whose `except` clause returns
`jsonify({'error': str(exc)}), 500`. -/
def py_chat_route (get_json : Except String (Option PyReq)) (uuid_conv : String)
    (trace_create : Except String String) (span_create : Except String Unit)
    (completion_call : Except String String) (span_finalize : Except String Unit)
    (trace_finalize : Except String Unit) : Except String PyRouteResult :=
  match get_json with
  | .error e => .error e
  | .ok none => .error "AttributeError: NoneType has no attribute get"
  | .ok (some req) =>
    match trace_create with
    | .error e => .error e
    | .ok trace_id =>
      match span_create with
      | .error e => .ok (.json_err_500 e)
      | .ok _ =>
        match completion_call with
        | .error e => .ok (.json_err_500 e)
        | .ok content =>
          match span_finalize with
          | .error e => .ok (.json_err_500 e)
          | .ok _ =>
            match trace_finalize with
            | .error e => .ok (.json_err_500 e)
            | .ok _ =>
              .ok (.ok { completion := content,
                         conversation_id := req.conversation_id.getD uuid_conv,
                         trace_id := trace_id })

/-- `langfuse_python`'s application-level error handling:
`app.register_error_handler(Exception, error_handler)` converts every
exception escaping a route into the generic JSON body with status
500. -/
def py_app (route : Except String PyRouteResult) : PyRouteResult :=
  match route with
  | .error _ => .json_err_500 py_generic_error_message
  | .ok r => r

/-! ## Helper lemmas -/

/-- Soundness of one non-greedy match attempt: a captured span is
followed in the input by the closing braces, contains no closing brace
pair (and does not end in a closing brace, so the closing pair found is
the leftmost one), and contains no newline. -/
theorem grab_span_sound : ∀ (l s : List Char) (rr : { r : List Char // r.length < l.length }),
    grab_span l = some (s, rr) →
    l = s ++ rbrace :: rbrace :: rr.val ∧
    has_double rbrace (s ++ [rbrace]) = false ∧
    s.all (fun c => c != nl) = true
  | [], s, rr => by simp [grab_span]
  | [c], s, rr => by simp [grab_span]
  | c1 :: c2 :: rest, s, rr => by
    intro h
    simp only [grab_span] at h
    by_cases hb : c1 = rbrace ∧ c2 = rbrace
    · rw [if_pos hb] at h
      simp only [Option.some.injEq, Prod.mk.injEq] at h
      obtain ⟨hs, hrr⟩ := h
      subst hs
      rw [← hrr]
      refine ⟨by simp [hb.1, hb.2], by decide, by decide⟩
    · rw [if_neg hb] at h
      by_cases hn : c1 = nl
      · rw [if_pos hn] at h
        exact absurd h (by simp)
      · rw [if_neg hn] at h
        cases hg : grab_span (c2 :: rest) with
        | none => rw [hg] at h; exact absurd h (by simp)
        | some pr =>
          obtain ⟨s', rr'⟩ := pr
          rw [hg] at h
          simp only [Option.some.injEq, Prod.mk.injEq] at h
          obtain ⟨hs, hrr⟩ := h
          subst hs
          rw [← hrr]
          obtain ⟨he, hd, ha⟩ := grab_span_sound (c2 :: rest) s' rr' hg
          refine ⟨by simp [he], ?_, by simp [ha, hn]⟩
          cases s' with
          | nil =>
            have hc2 : c2 = rbrace := by
              simpa using congrArg (fun l => l.head?) he
            have hc1 : ¬ c1 = rbrace := fun hc => hb ⟨hc, hc2⟩
            simp [has_double, hc1]
          | cons d t =>
            have hc2 : c2 = d := by
              simpa using congrArg (fun l => l.head?) he
            have hne : ¬ (c1 = rbrace ∧ d = rbrace) := fun hc => hb ⟨hc.1, hc2 ▸ hc.2⟩
            simp only [List.cons_append, has_double, List.append_eq]
            rw [List.cons_append] at hd
            rw [hd]
            simp only [Bool.or_false, Bool.and_eq_false_iff]
            by_cases h1 : c1 = rbrace
            · exact Or.inr (by simpa using fun h2 => hne ⟨h1, h2⟩)
            · exact Or.inl (by simpa using h1)

/-- Soundness of the fuelled findall scanner: every reported span is
enclosed between an opening and a closing double brace in the input, is
the non-greedy capture (no closing double brace occurs inside it or
immediately at its end), and contains no newline. -/
theorem scan_fuel_sound : ∀ (f : Nat) (l : List Char), l.length ≤ f →
    ∀ s ∈ scan_fuel f l,
      ∃ p q, l = p ++ lbrace :: lbrace :: (s ++ rbrace :: rbrace :: q) ∧
        has_double rbrace (s ++ [rbrace]) = false ∧
        s.all (fun c => c != nl) = true := by
  intro f
  induction f with
  | zero => intro l hl s hs; simp [scan_fuel] at hs
  | succ f ih =>
    intro l hl s hs
    match l, hl, hs with
    | [], hl, hs => simp [scan_fuel] at hs
    | [c], hl, hs => simp [scan_fuel] at hs
    | c1 :: c2 :: rest, hl, hs =>
      simp only [scan_fuel] at hs
      by_cases hb : c1 = lbrace ∧ c2 = lbrace
      · rw [if_pos hb] at hs
        cases hg : grab_span rest with
        | none =>
          rw [hg] at hs
          obtain ⟨p, q, hpq, hd, ha⟩ := ih (c2 :: rest) (by simp at hl ⊢; omega) s hs
          exact ⟨c1 :: p, q, by simp [hpq], hd, ha⟩
        | some pr =>
          obtain ⟨s', rr⟩ := pr
          rw [hg] at hs
          obtain ⟨he, hd', ha'⟩ := grab_span_sound rest s' rr hg
          rcases List.mem_cons.mp hs with hseq | hmem
          · subst hseq
            exact ⟨[], rr.val, by simp [hb.1, hb.2, he], hd', ha'⟩
          · have hlen : rr.val.length ≤ f := by
              have := rr.property
              simp at hl
              omega
            obtain ⟨p, q, hpq, hd, ha⟩ := ih rr.val hlen s hmem
            refine ⟨lbrace :: lbrace :: (s' ++ rbrace :: rbrace :: p), q, ?_, hd, ha⟩
            simp [hb.1, hb.2, he, hpq]
      · rw [if_neg hb] at hs
        obtain ⟨p, q, hpq, hd, ha⟩ := ih (c2 :: rest) (by simp at hl ⊢; omega) s hs
        exact ⟨c1 :: p, q, by simp [hpq], hd, ha⟩

/-! ## Claim C1 -/

/-- C1, counterexample: the claim says that for every non-200 fetch
status the pipeline aborts before the language-model step, but in `e02`
`initiate_conversation` only raises (via `raise_for_status`) for
statuses in `[400, 600)`: a 201 response with a valid question body
proceeds to `query_openai`. -/
theorem claim_c1_counterexample :
    (201 : Nat) ≠ 200 ∧
    E02Step.llm ∈ e02_trace (.resp 201 (some (some 1, some "hi"))) (fun _ => "answer") := by
  refine ⟨by decide, by decide⟩

/-- C1 (amended): for every run whose fetch step raises a network
exception the pipeline aborts before the language-model step in both
`e01` and `e02`; in `e01` any non-200 status also aborts before the
language-model step; in `e02` a non-200 status aborts before the
language-model step exactly when `raise_for_status` raises, i.e. when
the status is in `[400, 600)`. -/
theorem claim_c1_amended :
    (∀ code element llm login, code ≠ 200 →
       E01Step.llm ∉ e01_trace (.status code element) llm login) ∧
    (∀ llm login, E01Step.llm ∉ e01_trace .exc llm login) ∧
    (∀ llm, E02Step.llm ∉ e02_trace .netExc llm) ∧
    (∀ code body llm, 400 ≤ code → code < 600 →
       E02Step.llm ∉ e02_trace (.resp code body) llm) := by
  refine ⟨?_, ?_, ?_, ?_⟩
  · intro code element llm login h
    simp [e01_trace, fetch_question, h]
  · intro llm login
    simp [e01_trace, fetch_question]
  · intro llm
    simp [e02_trace, initiate_conversation]
  · intro code body llm h1 h2
    simp [e02_trace, initiate_conversation, h1, h2]

/-- C1, witness for the amended theorem at concrete inputs: a 404 in
`e01` and a 500 in `e02` abort before the language-model step. -/
theorem claim_c1_witness :
    ((404 : Nat) ≠ 200 ∧
      E01Step.llm ∉ e01_trace (.status 404 (some "Question:when?"))
        (fun _ => some "1999") (fun _ => some "page")) ∧
    ((400 : Nat) ≤ 500 ∧ (500 : Nat) < 600 ∧
      E02Step.llm ∉ e02_trace (.resp 500 (some (some 1, some "hi"))) (fun _ => "answer")) :=
  ⟨⟨by decide, claim_c1_amended.1 404 (some "Question:when?") _ _ (by decide)⟩,
   by decide, by decide, claim_c1_amended.2.2.2 500 (some (some 1, some "hi")) _ (by decide) (by decide)⟩

/-! ## Claim C2 -/

/-- C2: for every pipeline run in which the language-model step returns
an empty or `None` response, the pipeline aborts without invoking the
submit step: in `e01`, `main` returns before `login_to_system` when
`get_answer_from_llm` yields a falsy value; in `e02`, `main` returns
before `send_response` when `query_openai` yields an empty string. -/
theorem claim_c2 :
    (∀ fo llm login, (∀ q, llm q = none ∨ llm q = some "") →
       E01Step.login ∉ e01_trace fo llm login) ∧
    (∀ fo llm, (∀ q, llm q = "") → E02Step.submit ∉ e02_trace fo llm) := by
  constructor
  · intro fo llm login h
    unfold e01_trace
    cases hq : fetch_question fo with
    | none => simp
    | some q =>
      rcases h q with h1 | h1 <;> by_cases hq0 : q = "" <;> simp [hq0, h1]
  · intro fo llm h
    unfold e02_trace
    cases hq : (initiate_conversation fo).2 with
    | none => simp
    | some q =>
      by_cases hq0 : q = "" <;> simp [hq0, h q]

/-- C2, witness: with the language-model oracle failing (`None` in
`e01`, `""` in `e02`), concrete successful fetches never reach the
submit step. -/
theorem claim_c2_witness :
    ((∀ q : String, (fun _ : String => (none : Option String)) q = none ∨
        (fun _ : String => (none : Option String)) q = some "") ∧
      E01Step.login ∉ e01_trace (.status 200 (some "Question:when?"))
        (fun _ => none) (fun _ => some "page")) ∧
    ((∀ q : String, (fun _ : String => "") q = "") ∧
      E02Step.submit ∉ e02_trace (.resp 200 (some (some 1, some "hi"))) (fun _ => "")) :=
  ⟨⟨fun _ => Or.inl rfl,
    claim_c2.1 (.status 200 (some "Question:when?")) (fun _ => none) (fun _ => some "page")
      (fun _ => Or.inl rfl)⟩,
   ⟨fun _ => rfl,
    claim_c2.2 (.resp 200 (some (some 1, some "hi"))) (fun _ => "") (fun _ => rfl)⟩⟩

/-! ## Claim C3 -/

/-- C3: the reporter (`fetch_secret_data` in `e01`) extracts exactly the
non-greedy double-curly-brace spans of the response text: every reported
span is enclosed between an opening `\x7b\x7b` and the leftmost
following closing `\x7d\x7d` (and, matching Python's `.`, contains no
newline); and on text containing `\x7b\x7bsecret\x7d\x7d` it reports
exactly `secret`, with multiple spans reported in order. -/
theorem claim_c3 :
    (∀ (text s : String), s ∈ fetch_secret_matches text →
       ∃ p q, text.data = p ++ lbrace :: lbrace :: (s.data ++ rbrace :: rbrace :: q) ∧
         has_double rbrace (s.data ++ [rbrace]) = false ∧
         s.data.all (fun c => c != nl) = true) ∧
    fetch_secret_matches "some page \x7b\x7bsecret\x7d\x7d tail" = ["secret"] ∧
    fetch_secret_matches "\x7b\x7bone\x7d\x7d mid \x7b\x7btwo\x7d\x7d" = ["one", "two"] ∧
    fetch_secret_matches "no marker here" = [] := by
  refine ⟨?_, by decide, by decide, by decide⟩
  intro text s hs
  simp only [fetch_secret_matches, List.mem_map] at hs
  obtain ⟨l, hl, hmk⟩ := hs
  have hdata : s.data = l := by rw [← hmk]
  rw [hdata]
  exact scan_fuel_sound text.data.length text.data le_rfl l hl

/-- C3, witness: the soundness part of the theorem applied to a concrete
page text and its reported span `secret`. -/
theorem claim_c3_witness :
    ∃ p q, ("ab\x7b\x7bsecret\x7d\x7dcd" : String).data =
        p ++ lbrace :: lbrace :: (("secret" : String).data ++ rbrace :: rbrace :: q) ∧
      has_double rbrace (("secret" : String).data ++ [rbrace]) = false ∧
      ("secret" : String).data.all (fun c => c != nl) = true :=
  claim_c3.1 "ab\x7b\x7bsecret\x7d\x7dcd" "secret" (by decide)

/-! ## Claim C4 -/

/-- C4: on the success path, each chat handler returns the completion
content produced by the model (so the returned completion is non-empty
whenever the model's content is) together with a session identifier that
equals the one supplied in the request body when present and is the
freshly generated UUID otherwise. -/
theorem claim_c4 :
    (∀ (g : PromptGlobals) (u : String) (req : PromptReq),
       (prompt_chat g u req).response = g.llm (prompt_chat_thread g req) ∧
       (g.llm (prompt_chat_thread g req) ≠ "" → (prompt_chat g u req).response ≠ "") ∧
       (∀ sid, req.session_id = some sid → (prompt_chat g u req).session_id = sid) ∧
       (req.session_id = none → (prompt_chat g u req).session_id = u)) ∧
    (∀ (g : PyGlobals) (o : PyCallOracles) (req : PyReq),
       (py_chat g o req).completion = g.llm (py_system_messages ++ req.messages.map Entry.msg) ∧
       (g.llm (py_system_messages ++ req.messages.map Entry.msg) ≠ "" →
         (py_chat g o req).completion ≠ "") ∧
       (∀ cid, req.conversation_id = some cid → (py_chat g o req).conversation_id = cid) ∧
       (req.conversation_id = none → (py_chat g o req).conversation_id = o.uuid_conv)) := by
  constructor
  · intro g u req
    refine ⟨rfl, fun h => h, ?_, ?_⟩
    · intro sid hsid
      simp [prompt_chat, hsid]
    · intro hnone
      simp [prompt_chat, hnone]
  · intro g o req
    refine ⟨rfl, fun h => h, ?_, ?_⟩
    · intro cid hcid
      simp [py_chat, py_chat_run, hcid]
    · intro hnone
      simp [py_chat, py_chat_run, hnone]

/-- C4, witness: a concrete request to each handler, one with a session
identifier supplied and one without. -/
theorem claim_c4_witness :
    ((prompt_chat ⟨⟨some "system", some "sys", none⟩, fun _ => "Hi"⟩ "fresh"
        ⟨[⟨some "user", some "hi", none⟩], some "sess-1", none⟩).response ≠ "" ∧
     (prompt_chat ⟨⟨some "system", some "sys", none⟩, fun _ => "Hi"⟩ "fresh"
        ⟨[⟨some "user", some "hi", none⟩], some "sess-1", none⟩).session_id = "sess-1") ∧
    ((py_chat ⟨fun _ => "Hello"⟩ ⟨"u1", "u2", "t1"⟩
        ⟨[⟨some "user", some "hi", none⟩], none, none⟩).completion ≠ "" ∧
     (py_chat ⟨fun _ => "Hello"⟩ ⟨"u1", "u2", "t1"⟩
        ⟨[⟨some "user", some "hi", none⟩], none, none⟩).conversation_id = "u1") :=
  ⟨⟨(claim_c4.1 ⟨⟨some "system", some "sys", none⟩, fun _ => "Hi"⟩ "fresh"
       ⟨[⟨some "user", some "hi", none⟩], some "sess-1", none⟩).2.1 (by decide),
    (claim_c4.1 ⟨⟨some "system", some "sys", none⟩, fun _ => "Hi"⟩ "fresh"
       ⟨[⟨some "user", some "hi", none⟩], some "sess-1", none⟩).2.2.1 "sess-1" rfl⟩,
   ⟨(claim_c4.2 ⟨fun _ => "Hello"⟩ ⟨"u1", "u2", "t1"⟩
       ⟨[⟨some "user", some "hi", none⟩], none, none⟩).2.1 (by decide),
    (claim_c4.2 ⟨fun _ => "Hello"⟩ ⟨"u1", "u2", "t1"⟩
       ⟨[⟨some "user", some "hi", none⟩], none, none⟩).2.2.2 rfl⟩⟩

/-! ## Claim C5 -/

/-- C5, counterexample: a `POST /api/chat` whose JSON body is `null`
makes `langfuse_prompt`'s route raise `AttributeError` in
`data.get(...)` before its `try` block; the exception escapes the
handler, and `langfuse_prompt/app.py` registers no error handler, so the
unit does not convert this uncaught exception into a JSON 500 (Flask's
default non-JSON error page answers instead), contradicting the claim
that every uncaught exception yields a generic JSON 500 in either
unit. -/
theorem claim_c5_counterexample :
    prompt_chat_route (Except.ok none) "fresh" (Except.ok ()) (Except.ok "Hi")
        (Except.ok ()) = Except.error "AttributeError: NoneType has no attribute get" ∧
    except_ok (prompt_chat_route (Except.ok none) "fresh" (Except.ok ()) (Except.ok "Hi")
        (Except.ok ())) = false :=
  ⟨rfl, rfl⟩

/-- C5 (amended): `langfuse_python` converts every exception raised
while handling a chat request into a JSON error body with status 500 —
via the registered `error_handler` (generic message) when the exception
escapes the route, or via the route's own `except` clause
(`{'error': str(exc)}`) when it is raised inside the `try` block;
`langfuse_prompt` converts only exceptions raised inside its route's
`try` block into the generic JSON 500, while exceptions raised while
extracting the request body escape the handler unconverted. -/
theorem claim_c5_amended :
    (∀ gj uc tc sc cc sf tf,
       (∀ r : PyResp, py_chat_route gj uc tc sc cc sf tf ≠ .ok (.ok r)) →
       py_is_json_500 (py_app (py_chat_route gj uc tc sc cc sf tf)) = true) ∧
    (∀ (req : PromptReq) u tc ac tf,
       except_ok (prompt_chat_route (.ok (some req)) u tc ac tf) = true) ∧
    (∀ (req : PromptReq) u tc ac tf,
       except_ok tc = false ∨ except_ok ac = false ∨ except_ok tf = false →
       prompt_chat_route (.ok (some req)) u tc ac tf = .ok .err500generic) := by
  refine ⟨?_, ?_, ?_⟩
  · intro gj uc tc sc cc sf tf h
    cases gj with
    | error e => rfl
    | ok d =>
      cases d with
      | none => rfl
      | some req =>
        cases tc with
        | error e => rfl
        | ok tid =>
          cases sc with
          | error e => rfl
          | ok usc =>
            cases cc with
            | error e => rfl
            | ok content =>
              cases sf with
              | error e => rfl
              | ok usf =>
                cases tf with
                | error e => rfl
                | ok utf => exact absurd rfl (h ⟨content, req.conversation_id.getD uc, tid⟩)
  · intro req u tc ac tf
    cases tc with
    | error e => rfl
    | ok utc =>
      cases ac with
      | error e => rfl
      | ok content =>
        cases tf with
        | error e => rfl
        | ok utf => rfl
  · intro req u tc ac tf h
    cases tc with
    | error e => rfl
    | ok utc =>
      cases ac with
      | error e => rfl
      | ok content =>
        cases tf with
        | error e => rfl
        | ok utf => rcases h with h | h | h <;> simp [except_ok] at h

/-- C5, witness: a request on which the very first step (body parsing)
raises is converted by `langfuse_python`'s registered error handler into
a JSON 500. -/
theorem claim_c5_witness :
    py_is_json_500 (py_app (py_chat_route (Except.error "boom") "u" (Except.ok "t")
      (Except.ok ()) (Except.ok "c") (Except.ok ()) (Except.ok ()))) = true :=
  claim_c5_amended.1 (Except.error "boom") "u" (Except.ok "t") (Except.ok ())
    (Except.ok "c") (Except.ok ()) (Except.ok ())
    (fun r h => by simp [py_chat_route] at h)

/-! ## Claims C6 and C9 — `process_test_data` -/

/-- The loop body of `process_test_data` never touches the `question` or
`test` field of an item. -/
theorem process_item_fields (ev : String → Int) (item : TestItem) :
    (process_item ev item).question = item.question ∧
    (process_item ev item).test = item.test := by
  obtain ⟨oq, oa, ot⟩ := item
  cases oq with
  | none => exact ⟨rfl, rfl⟩
  | some q =>
    cases oa with
    | none => exact ⟨rfl, rfl⟩
    | some a =>
      simp only [process_item]
      split_ifs <;> simp

/-- The loop body of `process_test_data` leaves an item untouched unless
both its `question` and its `answer` are truthy. -/
theorem process_item_skip (ev : String → Int) (item : TestItem)
    (h : ¬ (str_truthy item.question = true ∧ int_truthy item.answer = true)) :
    process_item ev item = item := by
  obtain ⟨oq, oa, ot⟩ := item
  cases oq with
  | none => rfl
  | some q =>
    cases oa with
    | none => rfl
    | some a =>
      simp only [process_item]
      rw [if_neg]
      intro hc
      exact h ⟨by simp [str_truthy, hc.1], by simp [int_truthy, hc.2]⟩

/-- After the loop body of `process_test_data`, an item whose `question`
is non-empty and whose `answer` is truthy carries `eval(question)` as
its answer. -/
theorem process_item_correct (ev : String → Int) (item : TestItem) (q : String)
    (hq : (process_item ev item).question = some q) (hq0 : q ≠ "")
    (ha : int_truthy (process_item ev item).answer = true) :
    (process_item ev item).answer = some (ev q) := by
  obtain ⟨oq, oa, ot⟩ := item
  have hqpre : oq = some q := by
    have h2 := (process_item_fields ev ⟨oq, oa, ot⟩).1
    rw [hq] at h2
    exact h2.symm
  subst hqpre
  cases oa with
  | none => simp [process_item, int_truthy] at ha
  | some a =>
    by_cases ha0 : a = 0
    · rw [show process_item ev ⟨some q, some a, ot⟩ = ⟨some q, some a, ot⟩ from by
        simp only [process_item]
        rw [if_neg]
        intro hc
        exact hc.2 ha0] at ha
      simp [int_truthy, ha0] at ha
    · by_cases hne : a = ev q
      · rw [show process_item ev ⟨some q, some a, ot⟩ = ⟨some q, some a, ot⟩ from by
          simp only [process_item]
          rw [if_pos ⟨hq0, ha0⟩, if_neg (by simpa using hne)]]
        simp [hne]
      · rw [show process_item ev ⟨some q, some a, ot⟩ =
            ⟨some q, some (ev q), ot⟩ from by
          simp only [process_item]
          rw [if_pos ⟨hq0, ha0⟩, if_pos hne]]

/-- C6, counterexample: `process_test_data` in `e03` does not treat an
item with a missing `question` as a hard failure: it returns the list
with the item untouched (not empty/`None`), and the run continues to the
language-model step. -/
theorem claim_c6_counterexample :
    process_test_data (fun _ => 0) ⟨some [⟨none, some 5, none⟩]⟩ =
      ([⟨none, some 5, none⟩], []) ∧
    ([(⟨none, some 5, none⟩ : TestItem)] ≠ []) ∧
    E03Step.llm ∈ e03_trace (.ok ()) (.ok ⟨some [⟨none, some 5, none⟩]⟩) none := by
  refine ⟨rfl, by decide, by decide⟩

/-- C6 (amended): `e01`'s `fetch_question` does treat a missing
`human-question` element as a hard failure — it returns `None` and
`main` aborts before the language-model step — but `e03`'s
`process_test_data` does not: items missing `question` or `answer` are
skipped (left unchanged, still present in the returned list) and the run
continues to the language-model step. -/
theorem claim_c6_amended :
    (fetch_question (.status 200 none) = none ∧
     ∀ llm login, E01Step.llm ∉ e01_trace (.status 200 none) llm login) ∧
    (∀ (ev : String → Int) (data : E03Data),
       List.Forall₂ (fun pre post =>
         ¬ (str_truthy pre.question = true ∧ int_truthy pre.answer = true) → post = pre)
       (data.test_data.getD []) (process_test_data ev data).1) ∧
    (∀ (ev : String → Int) (data : E03Data),
       (process_test_data ev data).1.length = (data.test_data.getD []).length) ∧
    (∀ (u : Unit) (data : E03Data) llm_answers,
       E03Step.llm ∈ e03_trace (.ok u) (.ok data) llm_answers) := by
  refine ⟨⟨rfl, ?_⟩, ?_, ?_, ?_⟩
  · intro llm login
    simp [e01_trace, fetch_question]
  · intro ev data
    have hmap : (process_test_data ev data).1 = (data.test_data.getD []).map (process_item ev) :=
      rfl
    rw [hmap, List.forall₂_map_right_iff, List.forall₂_same]
    intro x _ hx
    exact process_item_skip ev x hx
  · intro ev data
    simp [process_test_data]
  · intro u data llm_answers
    cases llm_answers <;> simp [e03_trace]

/-- C6, witness: the amended theorem at concrete inputs — a 200 page
without the question element aborts `e01` before the LLM step, and an
`e03` item with a missing `question` passes through unchanged while the
run reaches the LLM step. -/
theorem claim_c6_witness :
    (E01Step.llm ∉ e01_trace (.status 200 none) (fun _ => some "1999") (fun _ => some "page")) ∧
    process_item (fun _ => 0) ⟨none, some 5, none⟩ = ⟨none, some 5, none⟩ ∧
    E03Step.llm ∈ e03_trace (.ok ()) (.ok ⟨some [⟨none, some 5, none⟩]⟩) none := by
  refine ⟨claim_c6_amended.1.2 (fun _ => some "1999") (fun _ => some "page"), ?_,
    claim_c6_amended.2.2.2 () ⟨some [⟨none, some 5, none⟩]⟩ none⟩
  have h := claim_c6_amended.2.1 (fun _ => 0) ⟨some [⟨none, some 5, none⟩]⟩
  rw [show ((⟨some [⟨none, some 5, none⟩]⟩ : E03Data).test_data.getD []) =
      [(⟨none, some 5, none⟩ : TestItem)] from rfl,
    show (process_test_data (fun _ => 0) ⟨some [⟨none, some 5, none⟩]⟩).1 =
      [process_item (fun _ => 0) ⟨none, some 5, none⟩] from rfl] at h
  cases h with
  | cons hp _ => exact hp (by decide)

/-- C9: after `process_test_data` returns, every item of the `test-data`
list whose `question` is non-empty and whose `answer` is truthy
satisfies `answer == eval(question)`; items whose recorded answer is
falsy are never corrected, and the `question` and `test` fields of every
item are left unchanged. -/
theorem claim_c9 :
    ∀ (ev : String → Int) (data : E03Data),
      List.Forall₂ (fun pre post =>
        post.question = pre.question ∧ post.test = pre.test ∧
        (int_truthy pre.answer = false → post.answer = pre.answer) ∧
        (∀ q, post.question = some q → q ≠ "" → int_truthy post.answer = true →
          post.answer = some (ev q)))
      (data.test_data.getD []) (process_test_data ev data).1 := by
  intro ev data
  have hmap : (process_test_data ev data).1 = (data.test_data.getD []).map (process_item ev) :=
    rfl
  rw [hmap, List.forall₂_map_right_iff, List.forall₂_same]
  intro x _
  refine ⟨(process_item_fields ev x).1, (process_item_fields ev x).2, ?_, ?_⟩
  · intro hfalsy
    have : process_item ev x = x := by
      refine process_item_skip ev x ?_
      intro hc
      rw [hfalsy] at hc
      exact absurd hc.2 (by simp)
    rw [this]
  · intro q hq hq0 ha
    exact process_item_correct ev x q hq hq0 ha

/-- C9, witness: an item recording answer 5 for the question `2+2` is
corrected to the evaluated answer 4. -/
theorem claim_c9_witness :
    (process_item (fun q => if q = "2+2" then 4 else 0) ⟨some "2+2", some 5, none⟩).answer =
      some 4 := by
  have h := claim_c9 (fun q => if q = "2+2" then 4 else 0) ⟨some [⟨some "2+2", some 5, none⟩]⟩
  rw [show ((⟨some [⟨some "2+2", some 5, none⟩]⟩ : E03Data).test_data.getD []) =
      [(⟨some "2+2", some 5, none⟩ : TestItem)] from rfl,
    show (process_test_data (fun q => if q = "2+2" then 4 else 0)
        ⟨some [⟨some "2+2", some 5, none⟩]⟩).1 =
      [process_item (fun q => if q = "2+2" then 4 else 0) ⟨some "2+2", some 5, none⟩] from
      rfl] at h
  cases h with
  | cons hp _ =>
    have hc := hp.2.2.2 "2+2" (by decide) (by decide) (by decide)
    simpa using hc

/-! ## Claim C7 -/

/-- C7, counterexample: the entry `langfuse_python`'s `chat` route
appends to `all_messages` is the bare completion string
(`main_completion.choices[0].message.content`), not a role-tagged
message entry, contradicting the claim that the list is mutated by
appending the reply as a role-tagged entry. -/
theorem claim_c7_counterexample :
    (py_chat_run ⟨fun _ => "Hello"⟩ ⟨"u1", "u2", "t1"⟩
        ⟨[⟨some "user", some "hi", none⟩], none, none⟩).all_messages =
      py_system_messages ++ [Entry.msg ⟨some "user", some "hi", none⟩, Entry.raw "Hello"] ∧
    ((py_chat_run ⟨fun _ => "Hello"⟩ ⟨"u1", "u2", "t1"⟩
        ⟨[⟨some "user", some "hi", none⟩], none, none⟩).all_messages.getLast?).map
      entry_is_tagged = some false := by
  exact ⟨rfl, rfl⟩

/-- C7 (amended): for every successful request to the `langfuse_python`
chat handler, the in-memory message list is rebuilt fresh per request as
the fixed role-tagged system messages followed by the client-supplied
messages in order, and is mutated exactly once — by appending the
model's latest reply as a plain (untagged) string — before the response,
which carries that same reply, is returned. -/
theorem claim_c7_amended :
    ∀ (g : PyGlobals) (o : PyCallOracles) (req : PyReq),
      (py_chat_run g o req).all_messages =
        (py_system_messages ++ req.messages.map Entry.msg) ++
          [Entry.raw (g.llm (py_system_messages ++ req.messages.map Entry.msg))] ∧
      (py_system_messages ++ req.messages.map Entry.msg).all entry_is_tagged = true ∧
      entry_is_tagged
        (Entry.raw (g.llm (py_system_messages ++ req.messages.map Entry.msg))) = false ∧
      (py_chat_run g o req).resp.completion =
        g.llm (py_system_messages ++ req.messages.map Entry.msg) := by
  intro g o req
  refine ⟨rfl, ?_, rfl, rfl⟩
  simp [py_system_messages, entry_is_tagged, List.all_append, List.all_map, Function.comp]

/-! ## Claim C8 -/

/-- C8, counterexample: two invocations of the `langfuse_prompt` chat
handler with the same request body (one that supplies no session
identifier) and the same responses from OpenAI and Langfuse produce
different results, because the fresh `uuid.uuid4()` draw differs between
the two invocations and is echoed as the session identifier. -/
theorem claim_c8_counterexample :
    prompt_chat ⟨⟨some "system", some "sys", none⟩, fun _ => "Hi"⟩ "uuid-a"
        ⟨[⟨some "user", some "hi", none⟩], none, none⟩ ≠
      prompt_chat ⟨⟨some "system", some "sys", none⟩, fun _ => "Hi"⟩ "uuid-b"
        ⟨[⟨some "user", some "hi", none⟩], none, none⟩ := by
  intro h
  have h2 : ("uuid-a" : String) = "uuid-b" := congrArg PromptResp.session_id h
  exact absurd h2 (by decide)

/-- C8 (amended): neither chat handler writes any module-level state —
threading the module state through two consecutive invocations returns
it unchanged — and two invocations with the same request body and the
same external-service responses produce the same result whenever the
request supplies its session/conversation identifier; when it does not,
the results differ exactly in the freshly drawn identifier. -/
theorem claim_c8_amended :
    (∀ (g : PromptGlobals) (u1 u2 : String) (req : PromptReq),
       (prompt_chat_invoke g u1 req).1 = g ∧
       (prompt_chat_invoke (prompt_chat_invoke g u1 req).1 u2 req).1 = g ∧
       (req.session_id.isSome = true →
         (prompt_chat_invoke (prompt_chat_invoke g u1 req).1 u2 req).2 =
           (prompt_chat_invoke g u1 req).2)) ∧
    (∀ (g : PyGlobals) (o1 o2 : PyCallOracles) (req : PyReq),
       (py_chat_invoke g o1 req).1 = g ∧
       (py_chat_invoke (py_chat_invoke g o1 req).1 o2 req).1 = g ∧
       (o1.trace_id = o2.trace_id → req.conversation_id.isSome = true →
         (py_chat_invoke (py_chat_invoke g o1 req).1 o2 req).2 =
           (py_chat_invoke g o1 req).2)) := by
  constructor
  · intro g u1 u2 req
    refine ⟨rfl, rfl, ?_⟩
    intro h
    cases hs : req.session_id with
    | none => rw [hs] at h; simp at h
    | some s => simp [prompt_chat_invoke, prompt_chat, hs]
  · intro g o1 o2 req
    refine ⟨rfl, rfl, ?_⟩
    intro ht h
    cases hs : req.conversation_id with
    | none => rw [hs] at h; simp at h
    | some c => simp [py_chat_invoke, py_chat, py_chat_run, hs, ht]

/-- C8, witness: two consecutive invocations with a supplied session
identifier and different UUID draws give identical results. -/
theorem claim_c8_witness :
    (prompt_chat_invoke
        (prompt_chat_invoke ⟨⟨some "system", some "sys", none⟩, fun _ => "Hi"⟩ "uuid-a"
          ⟨[⟨some "user", some "hi", none⟩], some "sess", none⟩).1 "uuid-b"
        ⟨[⟨some "user", some "hi", none⟩], some "sess", none⟩).2 =
      (prompt_chat_invoke ⟨⟨some "system", some "sys", none⟩, fun _ => "Hi"⟩ "uuid-a"
        ⟨[⟨some "user", some "hi", none⟩], some "sess", none⟩).2 :=
  (claim_c8_amended.1 ⟨⟨some "system", some "sys", none⟩, fun _ => "Hi"⟩ "uuid-a" "uuid-b"
    ⟨[⟨some "user", some "hi", none⟩], some "sess", none⟩).2.2 rfl

/-! ## Claim C10 -/

/-- Filtering with a predicate straight after filtering with its negation
leaves nothing. -/
theorem filter_system_after_not_system (l : List Msg) :
    (l.filter not_system).filter is_system = [] := by
  induction l with
  | nil => rfl
  | cons a t ih =>
    cases ha : is_system a with
    | true =>
      have hns : not_system a = false := by simp [not_system, ha]
      simp [List.filter_cons, hns, ih]
    | false =>
      have hns : not_system a = true := by simp [not_system, ha]
      simp [List.filter_cons, hns, ha, ih]

/-- C10: in `langfuse_prompt`, client-supplied system messages are
filtered out (in the route handler and again in
`AssistantService.answer`), so the thread sent to the OpenAI completion
call contains exactly one system message — the one compiled from the
Langfuse prompt, at its head — and never a client-provided one. -/
theorem claim_c10 :
    ∀ (g : PromptGlobals) (req : PromptReq),
      g.compiled_system.role = some "system" →
      (prompt_chat_thread g req).filter is_system = [g.compiled_system] ∧
      (∀ m ∈ prompt_chat_thread g req, is_system m = true → m = g.compiled_system) ∧
      (prompt_chat_thread g req).head? = some g.compiled_system := by
  intro g req h
  have hcs : is_system g.compiled_system = true := by simp [is_system, h]
  have hthread : prompt_chat_thread g req =
      g.compiled_system :: (req.messages.filter not_system).filter not_system := rfl
  refine ⟨?_, ?_, rfl⟩
  · rw [hthread, List.filter_cons]
    simp only [hcs, if_pos]
    rw [filter_system_after_not_system]
  · intro m hm hms
    rw [hthread] at hm
    rcases List.mem_cons.mp hm with hme | hmem
    · exact hme
    · have := List.of_mem_filter hmem
      rw [not_system, hms] at this
      simp at this

/-- C10, witness: a request carrying a client system message yields a
thread whose only system message is the compiled Langfuse one. -/
theorem claim_c10_witness :
    (prompt_chat_thread ⟨⟨some "system", some "compiled", none⟩, fun _ => "Hi"⟩
        ⟨[⟨some "system", some "evil", none⟩, ⟨some "user", some "hi", none⟩],
          none, none⟩).filter is_system =
      [⟨some "system", some "compiled", none⟩] :=
  (claim_c10 ⟨⟨some "system", some "compiled", none⟩, fun _ => "Hi"⟩
    ⟨[⟨some "system", some "evil", none⟩, ⟨some "user", some "hi", none⟩],
      none, none⟩ rfl).1

end Ai3r2
